import Mathlib

set_option maxRecDepth 10000

/-!
Shallow embedding of `src/ai_service_monitor_sis.py`, a Streamlit dashboard
that issues seven parameterized queries against account-usage views,
normalizes the resulting tables (lower-case column names, parsed dates,
one facet re-sorted), memoizes results, and renders charts.

Tabular results are modelled as a `DataFrame` of `Value` cells; the
warehouse session is modelled as a function from query text to
`Except String DataFrame` (the `QueryError` case carries the message).
-/

/-- Calendar date as year/month/day, the model of a SQL DATE / pandas
datetime value. -/
structure Date where
  y : Nat
  m : Nat
  d : Nat
deriving DecidableEq, Repr

/-- Numeric sort key giving calendar order on well-formed dates
(month and day below 100); models comparison of datetime values. -/
def Date.key (dt : Date) : Nat := dt.y * 10000 + dt.m * 100 + dt.d

/-- Cell values appearing in query results and normalized tables. -/
inductive Value where
  | str (s : String)
  | num (q : Rat)
  | date (dt : Date)
deriving DecidableEq, Repr

/-- Model of a pandas DataFrame: a column-name list and a list of rows. -/
structure DataFrame where
  cols : List String
  rows : List (List Value)
deriving DecidableEq, Repr

/-- Model of a fresh `pd.DataFrame()`: no columns, no rows. -/
def emptyDF : DataFrame := ⟨[], []⟩

/-- Model of `pd_df.empty`: true when either axis has length 0. -/
def DataFrame.isEmpty (df : DataFrame) : Bool :=
  df.rows.isEmpty || df.cols.isEmpty

/-- Split a character list at every dash. -/
def splitOnDash : List Char → List (List Char)
  | [] => [[]]
  | c :: t =>
    if c = '-' then [] :: splitOnDash t
    else
      match splitOnDash t with
      | [] => [[c]]
      | p :: ps => (c :: p) :: ps

/-- Value of one decimal digit character. -/
def charDigit (c : Char) : Option Nat :=
  if '0' ≤ c ∧ c ≤ '9' then some (c.toNat - '0'.toNat) else none

/-- Accumulate the decimal value of a digit run. -/
def digitsValAux (acc : Nat) : List Char → Option Nat
  | [] => some acc
  | c :: t =>
    match charDigit c with
    | some d => digitsValAux (acc * 10 + d) t
    | none => none

/-- Decimal value of a nonempty all-digit character run. -/
def digitsVal : List Char → Option Nat
  | [] => none
  | c :: t => digitsValAux 0 (c :: t)

/-- Parse a date string of the form "YYYY-MM-DD" (as `pd.to_datetime`
does on such inputs); `none` models a raised parse exception. -/
def parseDate (s : String) : Option Date :=
  match splitOnDash s.data with
  | [ys, ms, ds] =>
    match digitsVal ys, digitsVal ms, digitsVal ds with
    | some a, some b, some c => some ⟨a, b, c⟩
    | _, _, _ => none
  | _ => none

/-- Coerce one cell to a datetime value: date strings are parsed, dates
pass through, anything else raises (models `pd.to_datetime` on the
inputs this app feeds it). -/
def toDatetimeVal : Value → Option Value
  | .str s => (parseDate s).map Value.date
  | .date dt => some (Value.date dt)
  | _ => none

/-- Map a fallible function over a list, failing if any element fails. -/
def mapOptionList (f : α → Option β) : List α → Option (List β)
  | [] => some []
  | x :: xs =>
    match f x, mapOptionList f xs with
    | some y, some ys => some (y :: ys)
    | _, _ => none

/-- Lower-case one ASCII letter (the model of `str.lower()` on the
ASCII column names this app handles). -/
def charToLower (c : Char) : Char :=
  if 'A' ≤ c ∧ c ≤ 'Z' then Char.ofNat (c.toNat + 32) else c

/-- Lower-case a column name. -/
def strToLower (s : String) : String :=
  ⟨s.data.map charToLower⟩

/-- Model of `pd_df.columns = [col.lower() for col in pd_df.columns]`. -/
def lowerCols (df : DataFrame) : DataFrame :=
  ⟨df.cols.map strToLower, df.rows⟩

/-- Coerce the cell at index `i` of one row to a datetime value. -/
def datetimeRow (i : Nat) (r : List Value) : Option (List Value) :=
  match r.get? i with
  | some v => (toDatetimeVal v).map (fun vp => r.set i vp)
  | none => none

/-- Model of `pd_df['usage_date'] = pd.to_datetime(pd_df['usage_date'])`:
locate column `c` and coerce every cell in it; `none` models a raised
KeyError / parse error caught by the enclosing `except` block. -/
def toDatetimeCol (c : String) (df : DataFrame) : Option DataFrame :=
  let i := df.cols.indexOf c
  if i < df.cols.length then
    (mapOptionList (datetimeRow i) df.rows).map (fun rs => ⟨df.cols, rs⟩)
  else none

/-- Sort key of a row at column index `i` (0 on non-date cells, which do
not occur after datetime coercion succeeds). -/
def cellKey : Option Value → Nat
  | some (.date dt) => dt.key
  | _ => 0

/-- Row comparison by the date key at column index `i`; the order used by
`sort_values(by='usage_date', ascending=True)`. -/
def rowLe (i : Nat) (a b : List Value) : Prop :=
  cellKey (a.get? i) ≤ cellKey (b.get? i)

instance (i : Nat) : DecidableRel (rowLe i) :=
  fun _ _ => Nat.decLe _ _

instance (i : Nat) : IsTotal (List Value) (rowLe i) :=
  ⟨fun _ _ => Nat.le_total _ _⟩

instance (i : Nat) : IsTrans (List Value) (rowLe i) :=
  ⟨fun _ _ _ => Nat.le_trans⟩

/-- Model of `pd_df.sort_values(by=..., ascending=True)` on the column at
index `i`. -/
def sort_values (i : Nat) (rows : List (List Value)) : List (List Value) :=
  List.insertionSort (rowLe i) rows

/-- The warehouse session: maps query text to a result table or a
`QueryError` message. -/
abbrev Gateway := String → Except String DataFrame

/-- The try-block body shared by the seven fetch functions after
`to_pandas` succeeded with rows: the per-facet column step (lower-casing,
or the literal column-list assignment for Document AI), then the
`usage_date` datetime coercion, then for Chart 1 the ascending sort. -/
def normalizePipeline (colStep : DataFrame → Option DataFrame)
    (sortAsc : Bool) (pd_df : DataFrame) : Option DataFrame :=
  match colStep pd_df with
  | none => none
  | some d1 =>
    match toDatetimeCol "usage_date" d1 with
    | none => none
    | some d2 =>
      some (if sortAsc then
              ⟨d2.cols, sort_values (d2.cols.indexOf "usage_date") d2.rows⟩
            else d2)

/-- Shared shape of the seven fetch functions: bail out to an empty frame
when no session is available; run the query; on `QueryError` display the
facet's messages and return an empty frame; on an empty result return an
empty frame; otherwise normalize (an exception there is caught by the
same `except` block). The second component collects the messages the
function displays. -/
def runFetch (colStep : DataFrame → Option DataFrame) (sortAsc : Bool)
    (errMsgs : String → List String) (query : String)
    (sessionAvailable : Bool) (gw : Gateway) : DataFrame × List String :=
  if !sessionAvailable then (emptyDF, [])
  else
    match gw query with
    | .error e => (emptyDF, errMsgs e)
    | .ok pd_df =>
      if pd_df.isEmpty then (emptyDF, [])
      else
        match normalizePipeline colStep sortAsc pd_df with
        | some df => (df, [])
        | none => (emptyDF, errMsgs "normalization error")

/-- Query text built by `fetch_ai_usage_data` (Chart 1). -/
def fetch_ai_usage_data_query (days_limit : Nat) : String :=
  "\n    SELECT usage_date::date AS usage_date, credits_used\n    FROM SNOWFLAKE.ACCOUNT_USAGE.METERING_DAILY_HISTORY\n    WHERE SERVICE_TYPE = 'AI_SERVICES'\n      AND usage_date >= DATEADD(day, -" ++ toString days_limit ++ ", CURRENT_DATE())\n    ORDER BY usage_date DESC\n    LIMIT " ++ toString days_limit ++ ";\n    "

/-- Query text built by `fetch_llm_function_usage` (Tab 2.1). -/
def fetch_llm_function_usage_query (days_limit : Nat) : String :=
  "\n    SELECT date(qh.start_time) as usage_date, cf.function_name, sum(cf.token_credits) as total_token_credits\n    FROM SNOWFLAKE.ACCOUNT_USAGE.CORTEX_FUNCTIONS_QUERY_USAGE_HISTORY as cf\n    JOIN SNOWFLAKE.ACCOUNT_USAGE.QUERY_HISTORY as qh ON qh.query_id = cf.query_id\n    WHERE date(qh.start_time) >= DATEADD(day, -" ++ toString days_limit ++ ", CURRENT_DATE())\n      AND cf.function_name IS NOT NULL AND cf.token_credits > 0\n    GROUP BY 1, 2 ORDER BY 1, 2;\n    "

/-- Query text built by `fetch_complete_model_usage` (Tab 2.2). -/
def fetch_complete_model_usage_query (days_limit : Nat) : String :=
  "\n    SELECT date(qh.start_time) as usage_date, cf.model_name, sum(cf.token_credits) as total_token_credits\n    FROM SNOWFLAKE.ACCOUNT_USAGE.CORTEX_FUNCTIONS_QUERY_USAGE_HISTORY as cf\n    JOIN SNOWFLAKE.ACCOUNT_USAGE.QUERY_HISTORY as qh ON qh.query_id = cf.query_id\n    WHERE cf.function_name = 'COMPLETE'\n      AND date(qh.start_time) >= DATEADD(day, -" ++ toString days_limit ++ ", CURRENT_DATE())\n      AND cf.token_credits > 0\n    GROUP BY 1, 2 ORDER BY 1, 2;\n    "

/-- Query text built by `fetch_cortex_search_by_service` (Tab 3.1). -/
def fetch_cortex_search_by_service_query (days_limit : Nat) : String :=
  "\n    SELECT\n        usage_date::date as usage_date,\n        service_name,\n        sum(credits) as total_credits -- Use credits_used if that's the column name, else credits\n    FROM\n        SNOWFLAKE.ACCOUNT_USAGE.CORTEX_SEARCH_DAILY_USAGE_HISTORY -- Adjusted table name based on likely pattern\n    WHERE\n        usage_date >= DATEADD(day, -" ++ toString days_limit ++ ", CURRENT_DATE())\n    GROUP BY\n        1, 2\n    ORDER BY\n        1, 2;\n    "

/-- Query text built by `fetch_cortex_search_by_consumption` (Tab 3.2). -/
def fetch_cortex_search_by_consumption_query (days_limit : Nat) : String :=
  "\n    SELECT\n        usage_date::date as usage_date,\n        service_name,\n        'QUERY' as consumption_type, -- Example: Assuming consumption type needs mapping or isn't direct\n        sum(credits) as total_credits -- Adjust column names as needed\n    FROM\n        SNOWFLAKE.ACCOUNT_USAGE.CORTEX_SEARCH_DAILY_USAGE_HISTORY -- Adjusted table name\n    WHERE\n        usage_date >= DATEADD(day, -" ++ toString days_limit ++ ", CURRENT_DATE())\n    GROUP BY\n        1, 2, 3 -- Group by date, service, consumption type\n    ORDER BY\n        1, 2, 3; -- Order by date, service, consumption type\n    "

/-- Query text built by `fetch_cortex_analyst_usage` (Section 4). -/
def fetch_cortex_analyst_usage_query (days_limit : Nat) : String :=
  "\n    SELECT\n       date(start_time) as usage_date, -- Assuming USAGE_DATE exists, adjust if needed (e.g., DATE(START_TIME))\n        sum(credits) as total_credits -- Assuming CREDITS_USED exists, adjust if needed\n    FROM\n        SNOWFLAKE.ACCOUNT_USAGE.CORTEX_ANALYST_USAGE_HISTORY\n    WHERE\n        USAGE_DATE >= DATEADD(day, -" ++ toString days_limit ++ ", CURRENT_DATE()) -- Adjust date column if needed\n    GROUP BY\n        1\n    ORDER BY\n        1;\n    "

/-- Query text built by `fetch_document_ai_usage` (Section 5). -/
def fetch_document_ai_usage_query (days_limit : Nat) : String :=
  "\n    SELECT\n        date(start_time) as usage_date,\n        sum(credits_used) as total_credits\n    FROM\n        snowflake.account_usage.DOCUMENT_AI_USAGE_HISTORY\n    WHERE\n        date(start_time) >= DATEADD(day, -" ++ toString days_limit ++ ", CURRENT_DATE()) -- Added timeframe filter\n    GROUP BY\n        1\n    ORDER BY\n        1;\n    "

/-- Chart 1 fetch: lower-cases columns, parses dates, then re-sorts the
rows ascending by `usage_date` (the query itself orders descending). -/
def fetch_ai_usage_data (sessionAvailable : Bool) (gw : Gateway)
    (days_limit : Nat) : DataFrame × List String :=
  runFetch (fun df => some (lowerCols df)) true
    (fun e => ["(Chart 1) Error fetching AI Services data: " ++ e])
    (fetch_ai_usage_data_query days_limit) sessionAvailable gw

/-- Tab 2.1 fetch. -/
def fetch_llm_function_usage (sessionAvailable : Bool) (gw : Gateway)
    (days_limit : Nat) : DataFrame × List String :=
  runFetch (fun df => some (lowerCols df)) false
    (fun e =>
      ["(Tab 2.1) Error fetching LLM Function Usage data: " ++ e,
       "Ensure role has SELECT on CORTEX_FUNCTIONS_QUERY_USAGE_HISTORY and QUERY_HISTORY."])
    (fetch_llm_function_usage_query days_limit) sessionAvailable gw

/-- Tab 2.2 fetch. -/
def fetch_complete_model_usage (sessionAvailable : Bool) (gw : Gateway)
    (days_limit : Nat) : DataFrame × List String :=
  runFetch (fun df => some (lowerCols df)) false
    (fun e =>
      ["(Tab 2.2) Error fetching 'COMPLETE' usage data: " ++ e,
       "Ensure role has SELECT on CORTEX_FUNCTIONS_QUERY_USAGE_HISTORY and QUERY_HISTORY."])
    (fetch_complete_model_usage_query days_limit) sessionAvailable gw

/-- Tab 3.1 fetch; its error path also displays the failed query text. -/
def fetch_cortex_search_by_service (sessionAvailable : Bool) (gw : Gateway)
    (days_limit : Nat) : DataFrame × List String :=
  runFetch (fun df => some (lowerCols df)) false
    (fun e =>
      ["(Tab 3.1) Error fetching Cortex Search by Service data: " ++ e,
       "Ensure role has SELECT on CORTEX_SEARCH_DAILY_USAGE_HISTORY.",
       "Query attempted:\n```sql\n" ++ fetch_cortex_search_by_service_query days_limit ++ "\n```"])
    (fetch_cortex_search_by_service_query days_limit) sessionAvailable gw

/-- Tab 3.2 fetch; its error path also displays the failed query text. -/
def fetch_cortex_search_by_consumption (sessionAvailable : Bool) (gw : Gateway)
    (days_limit : Nat) : DataFrame × List String :=
  runFetch (fun df => some (lowerCols df)) false
    (fun e =>
      ["(Tab 3.2) Error fetching Cortex Search by Consumption data: " ++ e,
       "Ensure role has SELECT on the correct Cortex Search usage history view.",
       "Query attempted:\n```sql\n" ++ fetch_cortex_search_by_consumption_query days_limit ++ "\n```"])
    (fetch_cortex_search_by_consumption_query days_limit) sessionAvailable gw

/-- Section 4 fetch; its error path also displays the failed query text. -/
def fetch_cortex_analyst_usage (sessionAvailable : Bool) (gw : Gateway)
    (days_limit : Nat) : DataFrame × List String :=
  runFetch (fun df => some (lowerCols df)) false
    (fun e =>
      ["(Section 4) Error fetching Cortex Analyst usage data: " ++ e,
       "Ensure role has SELECT on CORTEX_ANALYST_USAGE_HISTORY and verify column names (e.g., USAGE_DATE, CREDITS_USED).",
       "Query attempted:\n```sql\n" ++ fetch_cortex_analyst_usage_query days_limit ++ "\n```"])
    (fetch_cortex_analyst_usage_query days_limit) sessionAvailable gw

/-- Section 5 fetch; instead of lower-casing, it assigns the literal
column list `['usage_date', 'total_credits']` (pandas raises on a length
mismatch, caught by the same except block). Its error path also displays
the failed query text. -/
def fetch_document_ai_usage (sessionAvailable : Bool) (gw : Gateway)
    (days_limit : Nat) : DataFrame × List String :=
  runFetch
    (fun df =>
      if df.cols.length = 2 then some ⟨["usage_date", "total_credits"], df.rows⟩
      else none)
    false
    (fun e =>
      ["(Section 5) Error fetching Document AI usage data: " ++ e,
       "Ensure role has SELECT on DOCUMENT_AI_USAGE_HISTORY and verify column names (e.g., start_time, credits_used).",
       "Query attempted:\n```sql\n" ++ fetch_document_ai_usage_query days_limit ++ "\n```"])
    (fetch_document_ai_usage_query days_limit) sessionAvailable gw

/-- Whether `sub` occurs as a contiguous run inside the second list. -/
def containsSub (sub : List Char) : List Char → Bool
  | [] => sub.isEmpty
  | c :: t => sub.isPrefixOf (c :: t) || containsSub sub t

/-- Substring containment on strings. -/
def strContains (s sub : String) : Bool :=
  containsSub sub.data s.data

/-- Replace every occurrence of `sub` by `mask`, scanning left to right;
the fuel argument (instantiated with the list length) bounds recursion. -/
def replaceFuel (sub mask : List Char) : Nat → List Char → List Char
  | _, [] => []
  | 0, s => s
  | fuel + 1, c :: t =>
    if sub.isPrefixOf (c :: t) then
      mask ++ replaceFuel sub mask fuel ((c :: t).drop sub.length)
    else c :: replaceFuel sub mask fuel t

/-- Replace every occurrence of `sub` in `s` by `mask`. -/
def maskSub (sub mask s : String) : String :=
  ⟨replaceFuel sub.data mask.data s.data.length s.data⟩

/-- The date-filter fragment each query interpolates the window into. -/
def dateFilterStr (n : Nat) : String :=
  ">= DATEADD(day, -" ++ toString n ++ ", CURRENT_DATE())"

/-- A query with its date filter masked out. If the window is
interpolated nowhere else, this is the same string for every window
value. -/
def maskedQuery (n : Nat) (q : String) : String :=
  maskSub (dateFilterStr n) "<DATEFILTER>" q

/-- A query with every occurrence of the window's digits masked out:
constant across window values exactly when the window is the only
interpolated variable. -/
def digitMaskedQuery (n : Nat) (q : String) : String :=
  maskSub (toString n) "<N>" q

/-- Ascending ordering at the query-string level: an ORDER BY clause is
present and no DESC modifier occurs anywhere in the query. -/
def orderedAscending (q : String) : Bool :=
  strContains q "ORDER BY" && !(strContains q "DESC")

/-- The dropdown options for the lookback window. -/
def days_options : List Nat := [7, 14, 30, 60, 90]

/-- The selected lookback window: `st.selectbox` returns the option at
the chosen index (default index 2, i.e. 30 days). -/
def selected_days (idx : Fin days_options.length) : Nat :=
  days_options.get idx

/-- The seven query texts issued during one render pass at window `d`. -/
def render_queries (d : Nat) : List String :=
  [fetch_ai_usage_data_query d,
   fetch_llm_function_usage_query d,
   fetch_complete_model_usage_query d,
   fetch_cortex_search_by_service_query d,
   fetch_cortex_search_by_consumption_query d,
   fetch_cortex_analyst_usage_query d,
   fetch_document_ai_usage_query d]

/-- One render pass: all seven fetches, each applied to the single
selected window. -/
def renderPass (sessionAvailable : Bool) (gw : Gateway)
    (idx : Fin days_options.length) : List (DataFrame × List String) :=
  [fetch_ai_usage_data sessionAvailable gw (selected_days idx),
   fetch_llm_function_usage sessionAvailable gw (selected_days idx),
   fetch_complete_model_usage sessionAvailable gw (selected_days idx),
   fetch_cortex_search_by_service sessionAvailable gw (selected_days idx),
   fetch_cortex_search_by_consumption sessionAvailable gw (selected_days idx),
   fetch_cortex_analyst_usage sessionAvailable gw (selected_days idx),
   fetch_document_ai_usage sessionAvailable gw (selected_days idx)]

/-- Client-side service filter of Tab 3.2: the sentinel option passes
the table through; otherwise keep exactly the rows whose
`service_name` cell equals the selection. -/
def cortex_service_filter (selected_service : String) (df : DataFrame) :
    DataFrame :=
  if selected_service = "All Services" then df
  else
    ⟨df.cols,
     df.rows.filter (fun r =>
       decide (r.get? (df.cols.indexOf "service_name")
         = some (Value.str selected_service)))⟩

/-- One stored entry of the memoizing cache. -/
structure CacheEntry where
  table : DataFrame
  stored : Nat
deriving DecidableEq, Repr

/-- Modelled from the spec: the fixed-TTL memoization that
`st.cache_data(ttl=600)` wraps around each fetch function (the decorator
itself is not part of this repository's source). A call looks up the
(facet, window) key; a stored entry younger than 600 seconds is returned
as is; otherwise the real computation runs and the entry is overwritten
with the fresh table and timestamp. The boolean result records whether
the underlying computation (and hence the warehouse) was invoked. -/
def cacheFetch (cache : List ((String × Nat) × CacheEntry))
    (key : String × Nat) (now : Nat) (compute : DataFrame) :
    DataFrame × List ((String × Nat) × CacheEntry) × Bool :=
  match cache.find? (fun kv => decide (kv.1 = key)) with
  | some kv =>
    if now - kv.2.stored < 600 then (kv.2.table, cache, false)
    else (compute, (key, ⟨compute, now⟩) :: cache, true)
  | none => (compute, (key, ⟨compute, now⟩) :: cache, true)

/-- One row of the METERING_DAILY_HISTORY view as Chart 1's query reads
it. -/
structure MeteringRow where
  usage_date : Date
  service_type : String
  credits_used : Rat

/-- Semantics of Chart 1's query over the metering view: keep
AI_SERVICES rows on or after the cutoff date (the cutoff stands for
DATEADD(day, -days_limit, CURRENT_DATE())), order by date descending,
and apply LIMIT days_limit. -/
def ai_usage_sem (days_limit : Nat) (cutoff : Date)
    (base : List MeteringRow) : DataFrame :=
  let sel := base.filter (fun r =>
    r.service_type == "AI_SERVICES" && decide (cutoff.key ≤ r.usage_date.key))
  let ordered := List.insertionSort
    (fun a b : MeteringRow => b.usage_date.key ≤ a.usage_date.key) sel
  ⟨["USAGE_DATE", "CREDITS_USED"],
   (ordered.take days_limit).map (fun r =>
     [Value.date r.usage_date, Value.num r.credits_used])⟩

/-- One row of the CORTEX_SEARCH_DAILY_USAGE_HISTORY view as the Tab 3
queries read it. -/
structure SearchUsageRow where
  usage_date : Date
  service_name : String
  credits : Rat

/-- Group-key order of ORDER BY 1, 2, 3 in Tab 3.2's query (the third
key is the constant literal, so date then service name decide). -/
def searchKeyLe (a b : Date × String) : Prop :=
  a.1.key < b.1.key ∨ (a.1.key = b.1.key ∧ ¬ b.2 < a.2)

instance : DecidableRel searchKeyLe :=
  fun _ _ => instDecidableOr

/-- Semantics of Tab 3.2's query over the search-usage view: keep rows
on or after the cutoff date (the cutoff stands for
DATEADD(day, -days_limit, CURRENT_DATE())), group by date, service name
and the constant literal consumption type, sum credits per group, and
order by the group key ascending. -/
def cortex_search_by_consumption_sem (cutoff : Date)
    (base : List SearchUsageRow) : DataFrame :=
  let sel := base.filter (fun r => decide (cutoff.key ≤ r.usage_date.key))
  let keys := (sel.map (fun r => (r.usage_date, r.service_name))).dedup
  let sortedKeys := List.insertionSort searchKeyLe keys
  ⟨["USAGE_DATE", "SERVICE_NAME", "CONSUMPTION_TYPE", "TOTAL_CREDITS"],
   sortedKeys.map (fun k =>
     [Value.date k.1, Value.str k.2, Value.str "QUERY",
      Value.num (((sel.filter (fun r =>
        (r.usage_date, r.service_name) == k)).map SearchUsageRow.credits).sum)])⟩

/-! ### Helper lemmas -/

theorem mapOptionList_length {α β : Type} {f : α → Option β} :
    ∀ {xs : List α} {ys : List β},
      mapOptionList f xs = some ys → ys.length = xs.length := by
  intro xs
  induction xs with
  | nil =>
    intro ys h
    simp only [mapOptionList, Option.some.injEq] at h
    subst h; rfl
  | cons x t ih =>
    intro ys h
    simp only [mapOptionList] at h
    split at h
    · next y ts hf ht =>
      cases h
      simp [List.length_cons, ih ht]
    · cases h

theorem mapOptionList_mem {α β : Type} {f : α → Option β} :
    ∀ {xs : List α} {ys : List β}, mapOptionList f xs = some ys →
      ∀ {x : α}, x ∈ xs → ∀ {y : β}, f x = some y → y ∈ ys := by
  intro xs
  induction xs with
  | nil => intro ys _ x hx; cases hx
  | cons a t ih =>
    intro ys h x hx y hy
    simp only [mapOptionList] at h
    split at h
    · next b ts hf ht =>
      cases h
      rcases List.mem_cons.mp hx with rfl | hxt
      · rw [hf] at hy; cases hy; exact List.mem_cons_self _ _
      · exact List.mem_cons_of_mem _ (ih ht hxt hy)
    · cases h

theorem mapOptionList_mem_rev {α β : Type} {f : α → Option β} :
    ∀ {xs : List α} {ys : List β}, mapOptionList f xs = some ys →
      ∀ {y : β}, y ∈ ys → ∃ x ∈ xs, f x = some y := by
  intro xs
  induction xs with
  | nil =>
    intro ys h y hy
    simp only [mapOptionList, Option.some.injEq] at h
    subst h; cases hy
  | cons a t ih =>
    intro ys h y hy
    simp only [mapOptionList] at h
    split at h
    · next b ts hf ht =>
      cases h
      rcases List.mem_cons.mp hy with rfl | hyt
      · exact ⟨a, List.mem_cons_self _ _, hf⟩
      · obtain ⟨x, hx, hfx⟩ := ih ht hyt
        exact ⟨x, List.mem_cons_of_mem _ hx, hfx⟩
    · cases h

theorem mapOptionList_id_of {α : Type} {f : α → Option α} :
    ∀ {xs : List α}, (∀ x ∈ xs, f x = some x) → mapOptionList f xs = some xs := by
  intro xs
  induction xs with
  | nil => intro _; rfl
  | cons a t ih =>
    intro h
    simp only [mapOptionList]
    rw [h a (List.mem_cons_self _ _), ih (fun x hx => h x (List.mem_cons_of_mem _ hx))]

theorem toDatetimeCol_spec {c : String} {df d2 : DataFrame}
    (h : toDatetimeCol c df = some d2) :
    d2.cols = df.cols ∧
      mapOptionList (datetimeRow (df.cols.indexOf c)) df.rows = some d2.rows := by
  simp only [toDatetimeCol] at h
  split at h
  · rw [Option.map_eq_some'] at h
    obtain ⟨rs, hrs, hd⟩ := h
    cases hd
    exact ⟨rfl, hrs⟩
  · cases h

theorem runFetch_congr {cs : DataFrame → Option DataFrame} {b : Bool}
    {em : String → List String} {q : String} {sa : Bool} {gw gw' : Gateway}
    (h : gw q = gw' q) :
    runFetch cs b em q sa gw = runFetch cs b em q sa gw' := by
  unfold runFetch
  rw [h]

/-! ### Claims -/

/-- Claim C10: if no warehouse session is available, every one of the
seven fetch functions returns the empty table immediately and displays
nothing, for every possible gateway — so the gateway is never
consulted. -/
theorem no_session_all_fetches_empty :
    ∀ (gw : Gateway) (days : Nat),
      fetch_ai_usage_data false gw days = (emptyDF, []) ∧
      fetch_llm_function_usage false gw days = (emptyDF, []) ∧
      fetch_complete_model_usage false gw days = (emptyDF, []) ∧
      fetch_cortex_search_by_service false gw days = (emptyDF, []) ∧
      fetch_cortex_search_by_consumption false gw days = (emptyDF, []) ∧
      fetch_cortex_analyst_usage false gw days = (emptyDF, []) ∧
      fetch_document_ai_usage false gw days = (emptyDF, []) :=
  fun _ _ => ⟨rfl, rfl, rfl, rfl, rfl, rfl, rfl⟩

/-- Claim C3: when no entry is stored yet for a (facet, window) key, a
fetch at time t0 runs the real computation and stores its table; a
second fetch for the same key within 600 seconds returns the identical
table and does not invoke the underlying computation (cache hit). -/
theorem cache_hit_within_ttl :
    ∀ (cache : List ((String × Nat) × CacheEntry)) (key : String × Nat)
      (t0 t1 : Nat) (v : DataFrame),
      cache.find? (fun kv => decide (kv.1 = key)) = none →
      t0 ≤ t1 → t1 - t0 < 600 →
      (cacheFetch cache key t0 v).1 = v ∧
      (cacheFetch cache key t0 v).2.2 = true ∧
      (cacheFetch (cacheFetch cache key t0 v).2.1 key t1 v).1
        = (cacheFetch cache key t0 v).1 ∧
      (cacheFetch (cacheFetch cache key t0 v).2.1 key t1 v).2.2 = false := by
  intro cache key t0 t1 v hnone _ hlt
  have h1 : cacheFetch cache key t0 v = (v, (key, ⟨v, t0⟩) :: cache, true) := by
    unfold cacheFetch
    rw [hnone]
  have hfind : ((key, (⟨v, t0⟩ : CacheEntry)) :: cache).find?
      (fun kv => decide (kv.1 = key)) = some (key, ⟨v, t0⟩) := by
    rw [List.find?_cons]
    simp
  have h2 : cacheFetch ((key, (⟨v, t0⟩ : CacheEntry)) :: cache) key t1 v
      = (v, (key, ⟨v, t0⟩) :: cache, false) := by
    unfold cacheFetch
    rw [hfind]
    simp [hlt]
  rw [h1]
  exact ⟨rfl, rfl, by rw [h2], by rw [h2]⟩

/-- Witness for the cache claim at a concrete key and times 0 and 100. -/
theorem cache_hit_within_ttl_witness :
    ([] : List ((String × Nat) × CacheEntry)).find?
        (fun kv => decide (kv.1 = ("fetch_ai_usage_data", 30))) = none ∧
    (cacheFetch ((cacheFetch [] ("fetch_ai_usage_data", 30) 0 emptyDF).2.1)
        ("fetch_ai_usage_data", 30) 100 emptyDF).1
      = (cacheFetch [] ("fetch_ai_usage_data", 30) 0 emptyDF).1 ∧
    (cacheFetch ((cacheFetch [] ("fetch_ai_usage_data", 30) 0 emptyDF).2.1)
        ("fetch_ai_usage_data", 30) 100 emptyDF).2.2 = false :=
  ⟨rfl,
   (cache_hit_within_ttl [] ("fetch_ai_usage_data", 30) 0 100 emptyDF rfl
      (by decide) (by decide)).2.2.1,
   (cache_hit_within_ttl [] ("fetch_ai_usage_data", 30) 0 100 emptyDF rfl
      (by decide) (by decide)).2.2.2⟩

/-- Claim C6: for a selected service name other than the sentinel
option, the client-side filter keeps exactly the rows whose
service_name cell equals the selection — a sublist of the original rows,
each row unchanged — and the sentinel "All Services" option returns the
table unchanged. -/
theorem service_filter_exact_rows :
    ∀ (df : DataFrame) (sel : String),
      (sel ≠ "All Services" →
        (cortex_service_filter sel df).cols = df.cols ∧
        List.Sublist (cortex_service_filter sel df).rows df.rows ∧
        (∀ r ∈ (cortex_service_filter sel df).rows,
          r.get? (df.cols.indexOf "service_name") = some (Value.str sel)) ∧
        (∀ r ∈ df.rows,
          r.get? (df.cols.indexOf "service_name") = some (Value.str sel) →
          r ∈ (cortex_service_filter sel df).rows)) ∧
      cortex_service_filter "All Services" df = df := by
  intro df sel
  constructor
  · intro hsel
    unfold cortex_service_filter
    rw [if_neg hsel]
    refine ⟨rfl, List.filter_sublist _, ?_, ?_⟩
    · intro r hr
      have := List.of_mem_filter hr
      simpa using this
    · intro r hr hcell
      exact List.mem_filter.mpr ⟨hr, by simpa using hcell⟩
  · unfold cortex_service_filter
    rw [if_pos rfl]

/-- Witness for the service filter on a 3-row table where two rows have
service_name ServiceX: the filtered rows are exactly those two rows, and
the sentinel option returns the table unchanged. -/
theorem service_filter_exact_rows_witness :
    (cortex_service_filter "ServiceX"
        ⟨["usage_date", "service_name"],
         [[Value.date ⟨2024, 3, 1⟩, Value.str "ServiceX"],
          [Value.date ⟨2024, 3, 2⟩, Value.str "Other"],
          [Value.date ⟨2024, 3, 3⟩, Value.str "ServiceX"]]⟩).rows =
      [[Value.date ⟨2024, 3, 1⟩, Value.str "ServiceX"],
       [Value.date ⟨2024, 3, 3⟩, Value.str "ServiceX"]] ∧
    List.Sublist
      (cortex_service_filter "ServiceX"
        ⟨["usage_date", "service_name"],
         [[Value.date ⟨2024, 3, 1⟩, Value.str "ServiceX"],
          [Value.date ⟨2024, 3, 2⟩, Value.str "Other"],
          [Value.date ⟨2024, 3, 3⟩, Value.str "ServiceX"]]⟩).rows
      [[Value.date ⟨2024, 3, 1⟩, Value.str "ServiceX"],
       [Value.date ⟨2024, 3, 2⟩, Value.str "Other"],
       [Value.date ⟨2024, 3, 3⟩, Value.str "ServiceX"]] ∧
    cortex_service_filter "All Services"
        ⟨["usage_date", "service_name"],
         [[Value.date ⟨2024, 3, 1⟩, Value.str "ServiceX"],
          [Value.date ⟨2024, 3, 2⟩, Value.str "Other"],
          [Value.date ⟨2024, 3, 3⟩, Value.str "ServiceX"]]⟩ =
      ⟨["usage_date", "service_name"],
       [[Value.date ⟨2024, 3, 1⟩, Value.str "ServiceX"],
        [Value.date ⟨2024, 3, 2⟩, Value.str "Other"],
        [Value.date ⟨2024, 3, 3⟩, Value.str "ServiceX"]]⟩ :=
  ⟨by decide,
   ((service_filter_exact_rows
      ⟨["usage_date", "service_name"],
       [[Value.date ⟨2024, 3, 1⟩, Value.str "ServiceX"],
        [Value.date ⟨2024, 3, 2⟩, Value.str "Other"],
        [Value.date ⟨2024, 3, 3⟩, Value.str "ServiceX"]]⟩ "ServiceX").1
      (by decide)).2.1,
   (service_filter_exact_rows
      ⟨["usage_date", "service_name"],
       [[Value.date ⟨2024, 3, 1⟩, Value.str "ServiceX"],
        [Value.date ⟨2024, 3, 2⟩, Value.str "Other"],
        [Value.date ⟨2024, 3, 3⟩, Value.str "ServiceX"]]⟩ "ServiceX").2⟩

/-- Claim C2: for each of the seven facets, a gateway error and a
zero-row gateway result converge to the same returned table (the empty
frame), the error case additionally displaying at least one message;
and each facet's result depends only on the gateway's answer to that
facet's own query, so one facet's failure never affects the others. -/
theorem fetch_error_and_empty_converge :
    ∀ (days : Nat) (e : String),
      ((fetch_ai_usage_data true (fun _ => .error e) days).1 = emptyDF ∧
       (fetch_ai_usage_data true (fun _ => .error e) days).2 ≠ [] ∧
       fetch_ai_usage_data true (fun _ => .ok emptyDF) days = (emptyDF, []) ∧
       ∀ gw gw' : Gateway,
         gw (fetch_ai_usage_data_query days) = gw' (fetch_ai_usage_data_query days) →
         fetch_ai_usage_data true gw days = fetch_ai_usage_data true gw' days) ∧
      ((fetch_llm_function_usage true (fun _ => .error e) days).1 = emptyDF ∧
       (fetch_llm_function_usage true (fun _ => .error e) days).2 ≠ [] ∧
       fetch_llm_function_usage true (fun _ => .ok emptyDF) days = (emptyDF, []) ∧
       ∀ gw gw' : Gateway,
         gw (fetch_llm_function_usage_query days) = gw' (fetch_llm_function_usage_query days) →
         fetch_llm_function_usage true gw days = fetch_llm_function_usage true gw' days) ∧
      ((fetch_complete_model_usage true (fun _ => .error e) days).1 = emptyDF ∧
       (fetch_complete_model_usage true (fun _ => .error e) days).2 ≠ [] ∧
       fetch_complete_model_usage true (fun _ => .ok emptyDF) days = (emptyDF, []) ∧
       ∀ gw gw' : Gateway,
         gw (fetch_complete_model_usage_query days) = gw' (fetch_complete_model_usage_query days) →
         fetch_complete_model_usage true gw days = fetch_complete_model_usage true gw' days) ∧
      ((fetch_cortex_search_by_service true (fun _ => .error e) days).1 = emptyDF ∧
       (fetch_cortex_search_by_service true (fun _ => .error e) days).2 ≠ [] ∧
       fetch_cortex_search_by_service true (fun _ => .ok emptyDF) days = (emptyDF, []) ∧
       ∀ gw gw' : Gateway,
         gw (fetch_cortex_search_by_service_query days) = gw' (fetch_cortex_search_by_service_query days) →
         fetch_cortex_search_by_service true gw days = fetch_cortex_search_by_service true gw' days) ∧
      ((fetch_cortex_search_by_consumption true (fun _ => .error e) days).1 = emptyDF ∧
       (fetch_cortex_search_by_consumption true (fun _ => .error e) days).2 ≠ [] ∧
       fetch_cortex_search_by_consumption true (fun _ => .ok emptyDF) days = (emptyDF, []) ∧
       ∀ gw gw' : Gateway,
         gw (fetch_cortex_search_by_consumption_query days) = gw' (fetch_cortex_search_by_consumption_query days) →
         fetch_cortex_search_by_consumption true gw days = fetch_cortex_search_by_consumption true gw' days) ∧
      ((fetch_cortex_analyst_usage true (fun _ => .error e) days).1 = emptyDF ∧
       (fetch_cortex_analyst_usage true (fun _ => .error e) days).2 ≠ [] ∧
       fetch_cortex_analyst_usage true (fun _ => .ok emptyDF) days = (emptyDF, []) ∧
       ∀ gw gw' : Gateway,
         gw (fetch_cortex_analyst_usage_query days) = gw' (fetch_cortex_analyst_usage_query days) →
         fetch_cortex_analyst_usage true gw days = fetch_cortex_analyst_usage true gw' days) ∧
      ((fetch_document_ai_usage true (fun _ => .error e) days).1 = emptyDF ∧
       (fetch_document_ai_usage true (fun _ => .error e) days).2 ≠ [] ∧
       fetch_document_ai_usage true (fun _ => .ok emptyDF) days = (emptyDF, []) ∧
       ∀ gw gw' : Gateway,
         gw (fetch_document_ai_usage_query days) = gw' (fetch_document_ai_usage_query days) →
         fetch_document_ai_usage true gw days = fetch_document_ai_usage true gw' days) := by
  intro days e
  refine ⟨⟨rfl, ?_, rfl, fun gw gw' h => runFetch_congr h⟩,
          ⟨rfl, ?_, rfl, fun gw gw' h => runFetch_congr h⟩,
          ⟨rfl, ?_, rfl, fun gw gw' h => runFetch_congr h⟩,
          ⟨rfl, ?_, rfl, fun gw gw' h => runFetch_congr h⟩,
          ⟨rfl, ?_, rfl, fun gw gw' h => runFetch_congr h⟩,
          ⟨rfl, ?_, rfl, fun gw gw' h => runFetch_congr h⟩,
          ⟨rfl, ?_, rfl, fun gw gw' h => runFetch_congr h⟩⟩ <;>
    exact List.cons_ne_nil _ _

/-- Witness for the error / empty convergence on the analyst facet at
window 30 with a permission-denied error. -/
theorem fetch_error_and_empty_converge_witness :
    (fetch_cortex_analyst_usage true (fun _ => .error "permission denied") 30).1
      = emptyDF ∧
    (fetch_cortex_analyst_usage true (fun _ => .error "permission denied") 30).2
      ≠ [] ∧
    fetch_cortex_analyst_usage true (fun _ => .ok emptyDF) 30 = (emptyDF, []) ∧
    fetch_cortex_analyst_usage true (fun _ => .ok emptyDF) 30
      = fetch_cortex_analyst_usage true (fun q => if q = "" then .error "x" else .ok emptyDF) 30 :=
  ⟨(fetch_error_and_empty_converge 30 "permission denied").2.2.2.2.2.1.1,
   (fetch_error_and_empty_converge 30 "permission denied").2.2.2.2.2.1.2.1,
   (fetch_error_and_empty_converge 30 "permission denied").2.2.2.2.2.1.2.2.1,
   (fetch_error_and_empty_converge 30 "permission denied").2.2.2.2.2.1.2.2.2
     _ _ (if_neg (by decide)).symm⟩

/-- Claim C7: the selected lookback window always comes from the fixed
set {7, 14, 30, 60, 90}, and one render pass consults the gateway only
on the seven queries built from that single selected value — so every
facet fetch uses the same window. -/
theorem lookback_window_uniform :
    ∀ (idx : Fin days_options.length),
      selected_days idx ∈ [7, 14, 30, 60, 90] ∧
      ∀ (avail : Bool) (gw gw' : Gateway),
        (∀ q ∈ render_queries (selected_days idx), gw q = gw' q) →
        renderPass avail gw idx = renderPass avail gw' idx := by
  intro idx
  constructor
  · exact List.get_mem days_options idx.1 idx.2
  · intro avail gw gw' h
    have h1 := h (fetch_ai_usage_data_query (selected_days idx))
      (by simp [render_queries])
    have h2 := h (fetch_llm_function_usage_query (selected_days idx))
      (by simp [render_queries])
    have h3 := h (fetch_complete_model_usage_query (selected_days idx))
      (by simp [render_queries])
    have h4 := h (fetch_cortex_search_by_service_query (selected_days idx))
      (by simp [render_queries])
    have h5 := h (fetch_cortex_search_by_consumption_query (selected_days idx))
      (by simp [render_queries])
    have h6 := h (fetch_cortex_analyst_usage_query (selected_days idx))
      (by simp [render_queries])
    have h7 := h (fetch_document_ai_usage_query (selected_days idx))
      (by simp [render_queries])
    simp only [renderPass, fetch_ai_usage_data, fetch_llm_function_usage,
      fetch_complete_model_usage, fetch_cortex_search_by_service,
      fetch_cortex_search_by_consumption, fetch_cortex_analyst_usage,
      fetch_document_ai_usage]
    rw [runFetch_congr h1, runFetch_congr h2, runFetch_congr h3,
      runFetch_congr h4, runFetch_congr h5, runFetch_congr h6,
      runFetch_congr h7]

/-- Witness for the uniform-window claim at the default index 2 (30
days). -/
theorem lookback_window_uniform_witness :
    selected_days ⟨2, by decide⟩ ∈ [7, 14, 30, 60, 90] ∧
    renderPass true (fun _ => .ok emptyDF) ⟨2, by decide⟩
      = renderPass true (fun _ => .ok emptyDF) ⟨2, by decide⟩ :=
  ⟨(lookback_window_uniform ⟨2, by decide⟩).1,
   (lookback_window_uniform ⟨2, by decide⟩).2 true _ _ (fun _ _ => rfl)⟩

/-- Each query contains its facet's date filter, the date column
compared with DATEADD(day, -n, CURRENT_DATE()), for every window in the
dropdown. -/
theorem date_filter_present :
    ∀ n ∈ days_options,
      strContains (fetch_ai_usage_data_query n)
        ("usage_date " ++ dateFilterStr n) = true ∧
      strContains (fetch_llm_function_usage_query n)
        ("date(qh.start_time) " ++ dateFilterStr n) = true ∧
      strContains (fetch_complete_model_usage_query n)
        ("date(qh.start_time) " ++ dateFilterStr n) = true ∧
      strContains (fetch_cortex_search_by_service_query n)
        ("usage_date " ++ dateFilterStr n) = true ∧
      strContains (fetch_cortex_search_by_consumption_query n)
        ("usage_date " ++ dateFilterStr n) = true ∧
      strContains (fetch_cortex_analyst_usage_query n)
        ("USAGE_DATE " ++ dateFilterStr n) = true ∧
      strContains (fetch_document_ai_usage_query n)
        ("date(start_time) " ++ dateFilterStr n) = true := by
  intro n hn
  fin_cases hn <;> decide

/-- Outside the date filter, six of the queries do not vary with the
window at all, and Chart 1's query varies only by occurrences of the
window's own digits. -/
theorem masked_queries_const :
    ∀ n ∈ days_options,
      maskedQuery n (fetch_llm_function_usage_query n)
        = maskedQuery 7 (fetch_llm_function_usage_query 7) ∧
      maskedQuery n (fetch_complete_model_usage_query n)
        = maskedQuery 7 (fetch_complete_model_usage_query 7) ∧
      maskedQuery n (fetch_cortex_search_by_service_query n)
        = maskedQuery 7 (fetch_cortex_search_by_service_query 7) ∧
      maskedQuery n (fetch_cortex_search_by_consumption_query n)
        = maskedQuery 7 (fetch_cortex_search_by_consumption_query 7) ∧
      maskedQuery n (fetch_cortex_analyst_usage_query n)
        = maskedQuery 7 (fetch_cortex_analyst_usage_query 7) ∧
      maskedQuery n (fetch_document_ai_usage_query n)
        = maskedQuery 7 (fetch_document_ai_usage_query 7) ∧
      digitMaskedQuery n (fetch_ai_usage_data_query n)
        = digitMaskedQuery 7 (fetch_ai_usage_data_query 7) := by
  intro n hn
  fin_cases hn <;> decide

/-- Ordering facts at the query-string level: the six facet queries
other than Chart 1 have a GROUP BY and an ORDER BY with no DESC
modifier; Chart 1's query orders by usage_date descending. -/
theorem query_ordering_facts :
    ∀ n ∈ days_options,
      orderedAscending (fetch_llm_function_usage_query n) = true ∧
      orderedAscending (fetch_complete_model_usage_query n) = true ∧
      orderedAscending (fetch_cortex_search_by_service_query n) = true ∧
      orderedAscending (fetch_cortex_search_by_consumption_query n) = true ∧
      orderedAscending (fetch_cortex_analyst_usage_query n) = true ∧
      orderedAscending (fetch_document_ai_usage_query n) = true ∧
      strContains (fetch_llm_function_usage_query n) "GROUP BY" = true ∧
      strContains (fetch_complete_model_usage_query n) "GROUP BY" = true ∧
      strContains (fetch_cortex_search_by_service_query n) "GROUP BY" = true ∧
      strContains (fetch_cortex_search_by_consumption_query n) "GROUP BY" = true ∧
      strContains (fetch_cortex_analyst_usage_query n) "GROUP BY" = true ∧
      strContains (fetch_document_ai_usage_query n) "GROUP BY" = true ∧
      strContains (fetch_ai_usage_data_query n) "ORDER BY usage_date DESC" = true := by
  intro n hn
  fin_cases hn <;> decide

/-- LIMIT facts at the query-string level: Chart 1's query carries
LIMIT n; none of the other six queries contains a LIMIT clause. -/
theorem query_limit_facts :
    ∀ n ∈ days_options,
      strContains (fetch_ai_usage_data_query n) ("LIMIT " ++ toString n) = true ∧
      strContains (fetch_llm_function_usage_query n) "LIMIT" = false ∧
      strContains (fetch_complete_model_usage_query n) "LIMIT" = false ∧
      strContains (fetch_cortex_search_by_service_query n) "LIMIT" = false ∧
      strContains (fetch_cortex_search_by_consumption_query n) "LIMIT" = false ∧
      strContains (fetch_cortex_analyst_usage_query n) "LIMIT" = false ∧
      strContains (fetch_document_ai_usage_query n) "LIMIT" = false := by
  intro n hn
  fin_cases hn <;> decide

/-- Claim C1 counterexample: Chart 1's query interpolates the window a
second time, in its LIMIT clause, so the text outside the date filter
still differs between windows 7 and 14 — the query does not contain
"no variable interpolation other than the date filter". -/
theorem ai_usage_query_extra_interpolation :
    maskedQuery 7 (fetch_ai_usage_data_query 7)
      ≠ maskedQuery 14 (fetch_ai_usage_data_query 14) := by
  decide

/-- Claim C1 (amended): for every window N in {7, 14, 30, 60, 90}, each
of the seven query strings filters on its date column >= DATEADD(day,
-N, CURRENT_DATE()); the only interpolated variable is N itself: in six
of the queries nothing outside the date filter varies with N, while
Chart 1's query additionally interpolates N in its LIMIT clause (so its
variation is confined to occurrences of N's digits). -/
theorem queries_interpolate_only_window :
    ∀ n ∈ days_options, ∀ m ∈ days_options,
      (strContains (fetch_ai_usage_data_query n)
          ("usage_date " ++ dateFilterStr n) = true ∧
       strContains (fetch_llm_function_usage_query n)
          ("date(qh.start_time) " ++ dateFilterStr n) = true ∧
       strContains (fetch_complete_model_usage_query n)
          ("date(qh.start_time) " ++ dateFilterStr n) = true ∧
       strContains (fetch_cortex_search_by_service_query n)
          ("usage_date " ++ dateFilterStr n) = true ∧
       strContains (fetch_cortex_search_by_consumption_query n)
          ("usage_date " ++ dateFilterStr n) = true ∧
       strContains (fetch_cortex_analyst_usage_query n)
          ("USAGE_DATE " ++ dateFilterStr n) = true ∧
       strContains (fetch_document_ai_usage_query n)
          ("date(start_time) " ++ dateFilterStr n) = true) ∧
      maskedQuery n (fetch_llm_function_usage_query n)
        = maskedQuery m (fetch_llm_function_usage_query m) ∧
      maskedQuery n (fetch_complete_model_usage_query n)
        = maskedQuery m (fetch_complete_model_usage_query m) ∧
      maskedQuery n (fetch_cortex_search_by_service_query n)
        = maskedQuery m (fetch_cortex_search_by_service_query m) ∧
      maskedQuery n (fetch_cortex_search_by_consumption_query n)
        = maskedQuery m (fetch_cortex_search_by_consumption_query m) ∧
      maskedQuery n (fetch_cortex_analyst_usage_query n)
        = maskedQuery m (fetch_cortex_analyst_usage_query m) ∧
      maskedQuery n (fetch_document_ai_usage_query n)
        = maskedQuery m (fetch_document_ai_usage_query m) ∧
      digitMaskedQuery n (fetch_ai_usage_data_query n)
        = digitMaskedQuery m (fetch_ai_usage_data_query m) := by
  intro n hn m hm
  obtain ⟨b1, b2, b3, b4, b5, b6, b7⟩ := masked_queries_const n hn
  obtain ⟨c1, c2, c3, c4, c5, c6, c7⟩ := masked_queries_const m hm
  exact ⟨date_filter_present n hn,
    b1.trans c1.symm, b2.trans c2.symm, b3.trans c3.symm,
    b4.trans c4.symm, b5.trans c5.symm, b6.trans c6.symm,
    b7.trans c7.symm⟩

/-- Witness for the interpolation claim at windows 7 and 30. -/
theorem queries_interpolate_only_window_witness :
    7 ∈ days_options ∧ 30 ∈ days_options ∧
    maskedQuery 7 (fetch_llm_function_usage_query 7)
      = maskedQuery 30 (fetch_llm_function_usage_query 30) ∧
    digitMaskedQuery 7 (fetch_ai_usage_data_query 7)
      = digitMaskedQuery 30 (fetch_ai_usage_data_query 30) :=
  ⟨by decide, by decide,
   (queries_interpolate_only_window 7 (by decide) 30 (by decide)).2.1,
   (queries_interpolate_only_window 7 (by decide) 30 (by decide)).2.2.2.2.2.2.2⟩

/-- Claim C4 counterexample: at window 30, Chart 1's query string is not
ordered ascending — it contains an ORDER BY usage_date DESC clause. -/
theorem ai_usage_query_not_ascending :
    orderedAscending (fetch_ai_usage_data_query 30) = false ∧
    strContains (fetch_ai_usage_data_query 30) "ORDER BY usage_date DESC" = true := by
  decide

/-- Claim C4 (amended): every query selects rows with its date column
>= DATEADD(day, -N, CURRENT_DATE()); the six queries other than Chart 1
are grouped and ordered ascending (GROUP BY and ORDER BY present, no
DESC); Chart 1's query instead orders by usage_date descending, and its
fetch function re-sorts the returned rows ascending by the usage_date
column before returning them. -/
theorem queries_filter_and_order :
    (∀ n ∈ days_options,
      (strContains (fetch_ai_usage_data_query n)
          ("usage_date " ++ dateFilterStr n) = true ∧
       strContains (fetch_llm_function_usage_query n)
          ("date(qh.start_time) " ++ dateFilterStr n) = true ∧
       strContains (fetch_complete_model_usage_query n)
          ("date(qh.start_time) " ++ dateFilterStr n) = true ∧
       strContains (fetch_cortex_search_by_service_query n)
          ("usage_date " ++ dateFilterStr n) = true ∧
       strContains (fetch_cortex_search_by_consumption_query n)
          ("usage_date " ++ dateFilterStr n) = true ∧
       strContains (fetch_cortex_analyst_usage_query n)
          ("USAGE_DATE " ++ dateFilterStr n) = true ∧
       strContains (fetch_document_ai_usage_query n)
          ("date(start_time) " ++ dateFilterStr n) = true) ∧
      (orderedAscending (fetch_llm_function_usage_query n) = true ∧
       orderedAscending (fetch_complete_model_usage_query n) = true ∧
       orderedAscending (fetch_cortex_search_by_service_query n) = true ∧
       orderedAscending (fetch_cortex_search_by_consumption_query n) = true ∧
       orderedAscending (fetch_cortex_analyst_usage_query n) = true ∧
       orderedAscending (fetch_document_ai_usage_query n) = true ∧
       strContains (fetch_llm_function_usage_query n) "GROUP BY" = true ∧
       strContains (fetch_complete_model_usage_query n) "GROUP BY" = true ∧
       strContains (fetch_cortex_search_by_service_query n) "GROUP BY" = true ∧
       strContains (fetch_cortex_search_by_consumption_query n) "GROUP BY" = true ∧
       strContains (fetch_cortex_analyst_usage_query n) "GROUP BY" = true ∧
       strContains (fetch_document_ai_usage_query n) "GROUP BY" = true ∧
       strContains (fetch_ai_usage_data_query n) "ORDER BY usage_date DESC" = true)) ∧
    ∀ (gw : Gateway) (days : Nat) (df : DataFrame),
      gw (fetch_ai_usage_data_query days) = .ok df →
      List.Sorted (rowLe ((df.cols.map strToLower).indexOf "usage_date"))
        ((fetch_ai_usage_data true gw days).1).rows := by
  constructor
  · intro n hn
    exact ⟨date_filter_present n hn, query_ordering_facts n hn⟩
  · intro gw days df hgw
    by_cases hemp : df.isEmpty
    · have hfe : fetch_ai_usage_data true gw days = (emptyDF, []) := by
        unfold fetch_ai_usage_data runFetch
        rw [hgw]
        simp [hemp]
      rw [hfe]
      exact List.sorted_nil
    · cases hn : toDatetimeCol "usage_date" (lowerCols df) with
      | none =>
        have hfe : (fetch_ai_usage_data true gw days).1 = emptyDF := by
          unfold fetch_ai_usage_data runFetch normalizePipeline
          rw [hgw]
          simp [hemp, hn]
        rw [hfe]
        exact List.sorted_nil
      | some d2 =>
        have hfe : fetch_ai_usage_data true gw days
            = (⟨d2.cols, sort_values (d2.cols.indexOf "usage_date") d2.rows⟩, []) := by
          unfold fetch_ai_usage_data runFetch normalizePipeline
          rw [hgw]
          simp [hemp, hn]
        rw [hfe]
        have hcols : d2.cols = df.cols.map strToLower :=
          (toDatetimeCol_spec hn).1
        rw [show (df.cols.map strToLower).indexOf "usage_date"
              = d2.cols.indexOf "usage_date" by rw [hcols]]
        simp only [sort_values]
        exact List.sorted_insertionSort _ _

/-- Witness for the amended ordering claim: string facts at window 7
and the client-side ascending sort on a concrete two-row result that
the gateway returns date-descending. -/
theorem queries_filter_and_order_witness :
    7 ∈ days_options ∧
    orderedAscending (fetch_llm_function_usage_query 7) = true ∧
    List.Sorted
      (rowLe ((["USAGE_DATE", "CREDITS_USED"].map strToLower).indexOf "usage_date"))
      ((fetch_ai_usage_data true
          (fun _ => .ok ⟨["USAGE_DATE", "CREDITS_USED"],
            [[Value.date ⟨2024, 3, 2⟩, Value.num 7],
             [Value.date ⟨2024, 3, 1⟩, Value.num 12]]⟩) 7).1).rows :=
  ⟨by decide,
   ((queries_filter_and_order.1 7 (by decide)).2).1,
   queries_filter_and_order.2
     (fun _ => .ok ⟨["USAGE_DATE", "CREDITS_USED"],
       [[Value.date ⟨2024, 3, 2⟩, Value.num 7],
        [Value.date ⟨2024, 3, 1⟩, Value.num 12]]⟩) 7 _ rfl⟩

/-- Claim C5: for a non-empty gateway result whose datetime coercion
succeeds, the Chart 1 normalizer output carries the lower-cased column
names, and every input row whose usage_date cell is a date string
appears in the output with that cell replaced by the equal parsed
calendar date; the Document AI normalizer likewise outputs the fixed
lower-case column schema. -/
theorem normalizer_lowercases_and_parses :
    ∀ (days : Nat) (df d2 : DataFrame),
      df.isEmpty = false →
      toDatetimeCol "usage_date" (lowerCols df) = some d2 →
      ((fetch_ai_usage_data true (fun _ => .ok df) days).1.cols
          = df.cols.map strToLower ∧
       ∀ r ∈ df.rows, ∀ (s : String) (dt : Date),
         r.get? ((df.cols.map strToLower).indexOf "usage_date")
             = some (Value.str s) →
         parseDate s = some dt →
         r.set ((df.cols.map strToLower).indexOf "usage_date") (Value.date dt)
           ∈ (fetch_ai_usage_data true (fun _ => .ok df) days).1.rows) ∧
      (∀ (df3 e3 : DataFrame),
        df3.isEmpty = false → df3.cols.length = 2 →
        toDatetimeCol "usage_date" ⟨["usage_date", "total_credits"], df3.rows⟩
          = some e3 →
        (fetch_document_ai_usage true (fun _ => .ok df3) days).1.cols
          = ["usage_date", "total_credits"]) := by
  intro days df d2 hemp hdt
  have hfe : fetch_ai_usage_data true (fun _ => .ok df) days
      = (⟨d2.cols, sort_values (d2.cols.indexOf "usage_date") d2.rows⟩, []) := by
    unfold fetch_ai_usage_data runFetch normalizePipeline
    simp [hemp, hdt]
  have hcols : d2.cols = df.cols.map strToLower := (toDatetimeCol_spec hdt).1
  refine ⟨⟨?_, ?_⟩, ?_⟩
  · rw [hfe]
    exact hcols
  · intro r hr s dt hcell hparse
    have hrowfun : datetimeRow ((lowerCols df).cols.indexOf "usage_date") r
        = some (r.set ((df.cols.map strToLower).indexOf "usage_date")
            (Value.date dt)) := by
      unfold datetimeRow
      rw [show (lowerCols df).cols.indexOf "usage_date"
            = (df.cols.map strToLower).indexOf "usage_date" from rfl, hcell]
      simp [toDatetimeVal, hparse]
    have hmem : r.set ((df.cols.map strToLower).indexOf "usage_date")
        (Value.date dt) ∈ d2.rows :=
      mapOptionList_mem (toDatetimeCol_spec hdt).2 hr hrowfun
    rw [hfe]
    exact ((List.perm_insertionSort _ _).mem_iff).mpr hmem
  · intro df3 e3 hemp3 hlen3 hdt3
    have hfe3 : fetch_document_ai_usage true (fun _ => .ok df3) days = (e3, []) := by
      unfold fetch_document_ai_usage runFetch normalizePipeline
      simp [hemp3, hlen3, hdt3]
    rw [hfe3]
    exact (toDatetimeCol_spec hdt3).1

/-- Witness for the normalization claim: a one-row result with
upper-case column names and the date string "2024-01-05" comes back
with lower-case column names and the cell parsed to the calendar date
2024-01-05. -/
theorem normalizer_lowercases_and_parses_witness :
    parseDate "2024-01-05" = some ⟨2024, 1, 5⟩ ∧
    (fetch_ai_usage_data true (fun _ => .ok ⟨["USAGE_DATE", "CREDITS_USED"],
        [[Value.str "2024-01-05", Value.num 12]]⟩) 7).1.cols
      = ["USAGE_DATE", "CREDITS_USED"].map strToLower ∧
    [Value.date ⟨2024, 1, 5⟩, Value.num 12]
      ∈ (fetch_ai_usage_data true (fun _ => .ok ⟨["USAGE_DATE", "CREDITS_USED"],
          [[Value.str "2024-01-05", Value.num 12]]⟩) 7).1.rows := by
  refine ⟨by decide, ?_, ?_⟩
  · exact (normalizer_lowercases_and_parses 7
      ⟨["USAGE_DATE", "CREDITS_USED"], [[Value.str "2024-01-05", Value.num 12]]⟩
      ⟨["usage_date", "credits_used"], [[Value.date ⟨2024, 1, 5⟩, Value.num 12]]⟩
      (by decide) (by decide)).1.1
  · exact (normalizer_lowercases_and_parses 7
      ⟨["USAGE_DATE", "CREDITS_USED"], [[Value.str "2024-01-05", Value.num 12]]⟩
      ⟨["usage_date", "credits_used"], [[Value.date ⟨2024, 1, 5⟩, Value.num 12]]⟩
      (by decide) (by decide)).1.2
      [Value.str "2024-01-05", Value.num 12] (by decide)
      "2024-01-05" ⟨2024, 1, 5⟩ (by decide) (by decide)

/-- A list all of whose elements equal one value has at most one
distinct element. -/
theorem dedup_length_le_one {α : Type} [DecidableEq α] {l : List α} {a : α}
    (h : ∀ x ∈ l, x = a) : l.dedup.length ≤ 1 := by
  cases hd : l.dedup with
  | nil => simp
  | cons b t =>
    cases ht : t with
    | nil => simp
    | cons c t2 =>
      exfalso
      have hnd := List.nodup_dedup l
      rw [hd, ht] at hnd
      have hb : b ∈ l := List.mem_dedup.mp (by rw [hd]; exact List.mem_cons_self _ _)
      have hc : c ∈ l := List.mem_dedup.mp
        (by rw [hd, ht]; exact List.mem_cons_of_mem _ (List.mem_cons_self _ _))
      have hbc : b = c := (h b hb).trans (h c hc).symm
      exact (List.nodup_cons.mp hnd).1 (by rw [hbc]; exact List.mem_cons_self _ _)

/-- Claim C8: Tab 3.2's query hardcodes the literal QUERY as the
consumption_type column (it is not read from the view), so whenever
the gateway returns that query's semantics over any view contents, the
returned table's consumption_type column (index 2) holds QUERY in every
row and admits at most one distinct value. -/
theorem consumption_type_constant :
    (∀ n ∈ days_options,
      strContains (fetch_cortex_search_by_consumption_query n)
        "'QUERY' as consumption_type" = true) ∧
    ∀ (days : Nat) (cutoff : Date) (base : List SearchUsageRow) (gw : Gateway),
      gw (fetch_cortex_search_by_consumption_query days)
        = .ok (cortex_search_by_consumption_sem cutoff base) →
      (((fetch_cortex_search_by_consumption true gw days).1).rows ≠ [] →
        ((fetch_cortex_search_by_consumption true gw days).1).cols.indexOf
          "consumption_type" = 2) ∧
      (∀ r ∈ ((fetch_cortex_search_by_consumption true gw days).1).rows,
        r.get? 2 = some (Value.str "QUERY")) ∧
      ((((fetch_cortex_search_by_consumption true gw days).1).rows.filterMap
          (fun r => r.get? 2)).dedup.length ≤ 1) := by
  constructor
  · intro n hn
    fin_cases hn <;> decide
  · intro days cutoff base gw hgw
    have hsemrows : ∀ r ∈ (cortex_search_by_consumption_sem cutoff base).rows,
        r.get? 2 = some (Value.str "QUERY") ∧ datetimeRow 0 r = some r := by
      intro r hr
      simp only [cortex_search_by_consumption_sem] at hr
      obtain ⟨k, _, rfl⟩ := List.mem_map.mp hr
      exact ⟨rfl, rfl⟩
    by_cases hemp : (cortex_search_by_consumption_sem cutoff base).isEmpty
    · have hfe : fetch_cortex_search_by_consumption true gw days = (emptyDF, []) := by
        unfold fetch_cortex_search_by_consumption runFetch
        rw [hgw]
        simp [hemp]
      rw [hfe]
      exact ⟨fun hne => absurd rfl hne, fun r hr => absurd hr (by simp [emptyDF]),
        by simp [emptyDF]⟩
    · have hmap : mapOptionList (datetimeRow 0)
          (cortex_search_by_consumption_sem cutoff base).rows
          = some (cortex_search_by_consumption_sem cutoff base).rows :=
        mapOptionList_id_of (fun r hr => (hsemrows r hr).2)
      have hdt : toDatetimeCol "usage_date"
          (lowerCols (cortex_search_by_consumption_sem cutoff base))
          = some ⟨["usage_date", "service_name", "consumption_type", "total_credits"],
                  (cortex_search_by_consumption_sem cutoff base).rows⟩ := by
        show (mapOptionList (datetimeRow 0)
            (cortex_search_by_consumption_sem cutoff base).rows).map
            (fun rs => (⟨["usage_date", "service_name", "consumption_type",
              "total_credits"], rs⟩ : DataFrame)) = _
        rw [hmap]
        rfl
      have hfe : fetch_cortex_search_by_consumption true gw days
          = (⟨["usage_date", "service_name", "consumption_type", "total_credits"],
              (cortex_search_by_consumption_sem cutoff base).rows⟩, []) := by
        unfold fetch_cortex_search_by_consumption runFetch normalizePipeline
        rw [hgw]
        simp [hemp, hdt]
      rw [hfe]
      refine ⟨fun _ => rfl, fun r hr => (hsemrows r hr).1, ?_⟩
      refine dedup_length_le_one (a := Value.str "QUERY") ?_
      intro x hx
      obtain ⟨r, hr, hfx⟩ := List.mem_filterMap.mp hx
      have := (hsemrows r hr).1
      rw [this] at hfx
      exact (Option.some.injEq _ _).mp hfx.symm

/-- Witness for the constant consumption type on a one-row view. -/
theorem consumption_type_constant_witness :
    7 ∈ days_options ∧
    strContains (fetch_cortex_search_by_consumption_query 7)
      "'QUERY' as consumption_type" = true ∧
    ((fetch_cortex_search_by_consumption true
        (fun _ => .ok (cortex_search_by_consumption_sem ⟨2024, 1, 1⟩
          [⟨⟨2024, 1, 2⟩, "svcA", 3⟩])) 7).1).cols.indexOf "consumption_type" = 2 ∧
    ((((fetch_cortex_search_by_consumption true
        (fun _ => .ok (cortex_search_by_consumption_sem ⟨2024, 1, 1⟩
          [⟨⟨2024, 1, 2⟩, "svcA", 3⟩])) 7).1).rows.filterMap
          (fun r => r.get? 2)).dedup.length ≤ 1) :=
  ⟨by decide,
   consumption_type_constant.1 7 (by decide),
   (consumption_type_constant.2 7 ⟨2024, 1, 1⟩ [⟨⟨2024, 1, 2⟩, "svcA", 3⟩]
      _ rfl).1 (by decide),
   (consumption_type_constant.2 7 ⟨2024, 1, 1⟩ [⟨⟨2024, 1, 2⟩, "svcA", 3⟩]
      _ rfl).2.2⟩

/-- Claim C9: Chart 1's query alone carries a LIMIT N clause (none of
the other six queries contains LIMIT), and consequently the table the
overall-AI-services facet returns from that query's semantics has at
most N rows. -/
theorem ai_usage_row_limit :
    (∀ n ∈ days_options,
      strContains (fetch_ai_usage_data_query n) ("LIMIT " ++ toString n) = true ∧
      strContains (fetch_llm_function_usage_query n) "LIMIT" = false ∧
      strContains (fetch_complete_model_usage_query n) "LIMIT" = false ∧
      strContains (fetch_cortex_search_by_service_query n) "LIMIT" = false ∧
      strContains (fetch_cortex_search_by_consumption_query n) "LIMIT" = false ∧
      strContains (fetch_cortex_analyst_usage_query n) "LIMIT" = false ∧
      strContains (fetch_document_ai_usage_query n) "LIMIT" = false) ∧
    ∀ (days : Nat) (cutoff : Date) (base : List MeteringRow) (gw : Gateway),
      gw (fetch_ai_usage_data_query days) = .ok (ai_usage_sem days cutoff base) →
      ((fetch_ai_usage_data true gw days).1).rows.length ≤ days := by
  refine ⟨query_limit_facts, ?_⟩
  intro days cutoff base gw hgw
  have hsem : (ai_usage_sem days cutoff base).rows.length ≤ days := by
    simp only [ai_usage_sem]
    rw [List.length_map, List.length_take]
    exact Nat.min_le_left _ _
  have hle : ((fetch_ai_usage_data true gw days).1).rows.length
      ≤ (ai_usage_sem days cutoff base).rows.length := by
    by_cases hemp : (ai_usage_sem days cutoff base).isEmpty
    · have hfe : fetch_ai_usage_data true gw days = (emptyDF, []) := by
        unfold fetch_ai_usage_data runFetch
        rw [hgw]
        simp [hemp]
      rw [hfe]
      exact Nat.zero_le _
    · cases hdt : toDatetimeCol "usage_date"
          (lowerCols (ai_usage_sem days cutoff base)) with
      | none =>
        have hfe : (fetch_ai_usage_data true gw days).1 = emptyDF := by
          unfold fetch_ai_usage_data runFetch normalizePipeline
          rw [hgw]
          simp [hemp, hdt]
        rw [hfe]
        exact Nat.zero_le _
      | some d2 =>
        have hfe : fetch_ai_usage_data true gw days
            = (⟨d2.cols, sort_values (d2.cols.indexOf "usage_date") d2.rows⟩, []) := by
          unfold fetch_ai_usage_data runFetch normalizePipeline
          rw [hgw]
          simp [hemp, hdt]
        rw [hfe]
        have h2 : d2.rows.length = (ai_usage_sem days cutoff base).rows.length :=
          mapOptionList_length (toDatetimeCol_spec hdt).2
        simp only [sort_values]
        rw [List.length_insertionSort, h2]
  exact hle.trans hsem

/-- Witness for the row-limit claim on a one-row metering view at
window 7. -/
theorem ai_usage_row_limit_witness :
    7 ∈ days_options ∧
    strContains (fetch_ai_usage_data_query 7) ("LIMIT " ++ toString 7) = true ∧
    ((fetch_ai_usage_data true
        (fun _ => .ok (ai_usage_sem 7 ⟨2024, 1, 1⟩
          [⟨⟨2024, 1, 2⟩, "AI_SERVICES", 5⟩])) 7).1).rows.length ≤ 7 :=
  ⟨by decide,
   (ai_usage_row_limit.1 7 (by decide)).1,
   ai_usage_row_limit.2 7 ⟨2024, 1, 1⟩ [⟨⟨2024, 1, 2⟩, "AI_SERVICES", 5⟩] _ rfl⟩
